import Mathlib

/-!
Verification development for the VoxAi authentication / session-lifecycle
subsystem and the rule-based chat endpoint.

Server side (from `src/backend/routes/auth.js`, `src/unnamed/part_000`,
`src/unnamed/part_001`): user registration, login, token issuance, the
session-guard middleware, and the keyword-matching chat handler.

Client side (from `src/frontend/frontend/src/context/AuthContext.jsx` and
`src/unnamed/part_004`): the session manager — startup initialization,
login/logout persistence, and the axios request/response interceptors.

External collaborators (bcryptjs, jsonwebtoken, localStorage, the Mongo
document store) are modelled as explicit data: a salted hash is a record
holding its salt and the hashed secret, a signed token is a record holding
payload, validity window and the signing secret, and the store is a list of
user records threaded through each handler.
-/

/-- A bcrypt hash value: the salt used and the secret it binds.
Models the opaque string produced by `bcrypt.hash(password, salt)`;
`bcryptCompare` is the one-way verification function `bcrypt.compare`. -/
structure BHash where
  salt : Nat
  secret : String
deriving Repr, DecidableEq

/-- `bcrypt.hash(password, salt)` from `routes/auth.js` line 16. -/
def bcryptHash (salt : Nat) (pw : String) : BHash :=
  { salt := salt, secret := pw }

/-- `bcrypt.compare(password, user.password)` from `routes/auth.js` line 32:
true exactly when the plaintext matches the hashed secret. -/
def bcryptCompare (pw : String) (h : BHash) : Bool :=
  pw == h.secret

/-- A persisted user record (Mongo `User` document): `_id`, `name`, `email`,
`password` (the bcrypt hash — plaintext is never stored), `interests`. -/
structure User where
  id : Nat
  name : String
  email : String
  password : BHash
  interests : List String
deriving Repr, DecidableEq

/-- The credential store: the `users` collection as a list of documents,
in insertion order. -/
abbrev UserStore := List User

/-- `User.findOne({ email })` from `routes/auth.js` lines 12 and 29.
Mongoose drops filter keys whose value is `undefined`, so a missing email
turns the filter into `{}` and the first document (if any) is returned;
with a present email the first document with that exact email is returned
(lookup is case-sensitive, as stored). -/
def findOneByEmail (db : UserStore) : Option String → Option User
  | none => db.head?
  | some e => db.find? (fun u => u.email == e)

/-- Body of `POST /auth/register`: destructured fields may be absent. -/
structure RegisterBody where
  name : Option String
  email : Option String
  password : Option String
  interests : List String
deriving Repr, DecidableEq

/-- Outcome of the register route: 200 success, 400 duplicate, or a 500
from a thrown error (bad bcrypt input or store validation failure).
No constructor carries a token — registration never issues one. -/
inductive RegisterResult where
  | success (msg : String)
  | duplicate (msg : String)
  | serverError (msg : String)
deriving Repr, DecidableEq

/-- Whether a register outcome is the 200 success response. -/
def RegisterResult.isSuccess : RegisterResult → Bool
  | .success _ => true
  | _ => false

/-- The register route handler (`routes/auth.js` lines 9–23).
`newId` stands for the store-assigned `_id`, `salt` for the random salt of
`bcrypt.genSalt(10)`. Flow: look up the email; reject 400 if a user exists;
otherwise hash the password, create the document, answer 200.
A missing password makes `bcrypt.hash` throw (caught as a 500); an empty or
missing email makes document creation fail (caught as a 500) — see
`createInputOk`. Either way no record is written on failure. -/
def register (db : UserStore) (newId salt : Nat) (b : RegisterBody) :
    UserStore × RegisterResult :=
  match findOneByEmail db b.email with
  | some _ => (db, .duplicate "User already exists")
  | none =>
    match b.email, b.password with
    | some e, some p =>
      if e == "" || p == "" then (db, .serverError "User validation failed")
      else
        let u : User :=
          { id := newId, name := b.name.getD "", email := e,
            password := bcryptHash salt p, interests := b.interests }
        (db ++ [u], .success "User registered successfully")
    | _, _ => (db, .serverError "Illegal arguments")

/-- Modelled from the spec: `backend/models/User.js` is not under `src/`
(only its callers in `routes/auth.js` are), so the creation-time
validation it performs is taken from spec §4.1: "email and secret required
and non-empty" is enforced server-side; a request failing it creates no
record. This predicate names exactly that condition; `register` above
rejects (with the catch-all 500 of `routes/auth.js` line 21) precisely when
it is false and no duplicate was found first. -/
def createInputOk (email password : Option String) : Bool :=
  match email, password with
  | some e, some p => !(e == "") && !(p == "")
  | _, _ => false

/-- A signed session token (`jwt.sign({ id }, secret, { expiresIn: "7d" })`):
payload subject `id`, issue and expiry times in seconds, and the key it was
signed with (standing for the signature — verification succeeds exactly when
the verifier holds the same key and the token is untampered). -/
structure Token where
  id : Nat
  iat : Nat
  exp : Nat
  sig : String
deriving Repr, DecidableEq

/-- Seven days in seconds: the `"7d"` lifetime of `routes/auth.js` line 35. -/
def sevenDays : Nat := 7 * 24 * 60 * 60

/-- `jwt.sign({ id: payloadId }, secret, { expiresIn: "7d" })` at time `now`. -/
def jwtSign (payloadId : Nat) (secret : String) (now : Nat) : Token :=
  { id := payloadId, iat := now, exp := now + sevenDays, sig := secret }

/-- The public-safe projection `{ id, name, email }` returned by login and
cached client-side; it has no field for the secret hash. -/
structure UserProjection where
  id : Nat
  name : String
  email : String
deriving Repr, DecidableEq

/-- Body of `POST /auth/login`. -/
structure LoginBody where
  email : String
  password : String
deriving Repr, DecidableEq

/-- Outcome of the login route: 200 with token and projection, or a
status/message failure. Only the success constructor carries a token. -/
inductive LoginResult where
  | success (token : Token) (user : UserProjection)
  | failure (status : Nat) (msg : String)
deriving Repr, DecidableEq

/-- Whether a login response carries a token. -/
def LoginResult.hasToken : LoginResult → Bool
  | .success _ _ => true
  | .failure _ _ => false

/-- The login route handler (`routes/auth.js` lines 26–40): look up the
email (404-style 400 "User not found"), verify the secret against the
stored hash (400 "Invalid credentials"), then sign a 7-day token over the
user id and answer with it plus the `{ id, name, email }` projection. -/
def login (db : UserStore) (jwtSecret : String) (now : Nat) (b : LoginBody) :
    LoginResult :=
  match findOneByEmail db (some b.email) with
  | none => .failure 400 "User not found"
  | some user =>
    if bcryptCompare b.password user.password then
      .success (jwtSign user.id jwtSecret now)
        { id := user.id, name := user.name, email := user.email }
    else
      .failure 400 "Invalid credentials"

/-- Outcome of the session-guard middleware. -/
inductive AuthResult where
  | missingToken
  | invalidToken
  | expiredToken
  | ok (userId : Nat)
deriving Repr, DecidableEq

/-- Modelled from the spec: `backend/middleware/auth.js` is not under
`src/`; only its application to the protected chat route is
(`src/unnamed/part_000` line 153, `router.post("/", auth, ...)`). Spec §4.2:
fails `MissingToken` if no token is attached; `InvalidToken` if signature
verification fails (a token signed with a different secret, or tampered);
`ExpiredToken` if the current time is past `expires_at` of a token whose
signature is valid; on success resolves the caller identity from the
subject. Signature is checked before expiry, as the spec requires a
wrong-key token to be `InvalidToken`, never `ExpiredToken`. -/
def authenticate (serverSecret : String) (now : Nat) (tok : Option Token) :
    AuthResult :=
  match tok with
  | none => .missingToken
  | some t =>
    if t.sig != serverSecret then .invalidToken
    else if t.exp < now then .expiredToken
    else .ok t.id

/-- Number of stored users carrying a given email. -/
def countEmail (db : UserStore) (e : String) : Nat :=
  (db.filter (fun u => u.email == e)).length

/-! ## Chat endpoint (`src/unnamed/part_000`, lines 153–239)

The handler works on JavaScript strings; we model them as lists of UTF-16
code units (`List Nat`), which is what `includes`, `trim`, `toLowerCase`
and `startsWith` operate on. Keyword literals are converted with `codes`. -/

/-- UTF-16 code units of a (ASCII) Lean string literal. -/
def codes (s : String) : List Nat :=
  s.toList.map Char.toNat

/-- Whitespace as stripped by `String.prototype.trim` (ASCII portion:
tab, LF, VT, FF, CR, space). -/
def wsCode (n : Nat) : Bool :=
  (9 ≤ n && n ≤ 13) || n == 32

/-- Per-code-unit lowercasing as done by `toLowerCase` on ASCII:
`A`–`Z` (65–90) map to `a`–`z` (97–122), everything else is unchanged. -/
def lowerCode (n : Nat) : Nat :=
  if 65 ≤ n ∧ n ≤ 90 then n + 32 else n

/-- `s.toLowerCase()`. -/
def lowerCodes (l : List Nat) : List Nat :=
  l.map lowerCode

/-- `s.trim()`: drop leading and trailing whitespace. -/
def trimCodes (l : List Nat) : List Nat :=
  ((l.dropWhile wsCode).reverse.dropWhile wsCode).reverse

/-- `hay.startsWith(needle)` on code-unit lists. -/
def startsWithCodes : List Nat → List Nat → Bool
  | _, [] => true
  | [], _ :: _ => false
  | c :: cs, d :: ds => c == d && startsWithCodes cs ds

/-- `hay.includes(needle)` on code-unit lists: some suffix of `hay` starts
with `needle`. -/
def containsCodes : List Nat → List Nat → Bool
  | [], needle => startsWithCodes [] needle
  | c :: rest, needle => startsWithCodes (c :: rest) needle || containsCodes rest needle

/-- `userMessage.includes(kw)` for a keyword literal. -/
def includesStr (u : List Nat) (kw : String) : Bool :=
  containsCodes u (codes kw)

/-- The if/else keyword chain of the chat handler, applied to the already
trimmed and lowercased message (`part_000` lines 171–225). Response texts
are the source literals verbatim. -/
def respondCore (u : List Nat) : String :=
  if includesStr u "scheme" || includesStr u "government" || includesStr u "schemes" then
    "I can help you find information about government schemes! You can browse all available schemes on the Schemes page. Would you like to search for a specific type of scheme? I can provide information about financial aid, health schemes, educational schemes, and more."
  else if includesStr u "scholarship" || includesStr u "scholarships" || includesStr u "financial aid" then
    "I can help you find scholarship opportunities! VoxAi provides information about various scholarships available for students. Would you like information about merit-based scholarships, need-based scholarships, or scholarships for specific fields of study?"
  else if includesStr u "job" || includesStr u "jobs" || includesStr u "career" || includesStr u "employment" then
    "I can assist you with job opportunities and career guidance! Would you like information about government job openings, private sector opportunities, or career development resources?"
  else if includesStr u "course" || includesStr u "education" || includesStr u "learn" || includesStr u "skill" then
    "I can help you find educational resources and skill development courses! Would you like information about online courses, certification programs, or skill development initiatives?"
  else if includesStr u "hello" || includesStr u "hi" || includesStr u "hey" || startsWithCodes u (codes "hii") then
    "Hello! I\x27m VoxAi, your AI-powered assistant. I can help you find information about government schemes, scholarships, job opportunities, and educational resources. How can I assist you today?"
  else if includesStr u "help" || includesStr u "what can you do" || includesStr u "capabilities" then
    "I\x27m VoxAi, an AI-powered information assistant. I can help you with:\n\n• Information about government schemes and programs\n• Scholarship opportunities and financial aid\n• Job openings and career guidance\n• Educational resources and skill development courses\n• Personalized recommendations based on your interests\n\nWhat would you like to know more about?"
  else
    "Thank you for your query! I\x27m here to help you with information about government schemes, scholarships, job opportunities, and educational resources. Could you please provide more details about what you\x27re looking for? For example, you can ask about:\n\n• \x27Show me government schemes\x27\n• \x27Find scholarships for students\x27\n• \x27Job opportunities in [field]\x27\n• \x27Educational courses for [subject]\x27"

/-- The disjunction of every keyword test of `respondCore`: true exactly
when some keyword category matches the (trimmed, lowercased) message. -/
def keywordHit (u : List Nat) : Bool :=
  includesStr u "scheme" || includesStr u "government" || includesStr u "schemes" ||
  includesStr u "scholarship" || includesStr u "scholarships" || includesStr u "financial aid" ||
  includesStr u "job" || includesStr u "jobs" || includesStr u "career" || includesStr u "employment" ||
  includesStr u "course" || includesStr u "education" || includesStr u "learn" || includesStr u "skill" ||
  includesStr u "hello" || includesStr u "hi" || includesStr u "hey" || startsWithCodes u (codes "hii") ||
  includesStr u "help" || includesStr u "what can you do" || includesStr u "capabilities"

/-- The catch-all answer of the final `else` branch (`part_000` line 224). -/
def defaultChatAnswer : String :=
  "Thank you for your query! I\x27m here to help you with information about government schemes, scholarships, job opportunities, and educational resources. Could you please provide more details about what you\x27re looking for? For example, you can ask about:\n\n• \x27Show me government schemes\x27\n• \x27Find scholarships for students\x27\n• \x27Job opportunities in [field]\x27\n• \x27Educational courses for [subject]\x27"

/-- The `message` field of the chat request body: absent (or a falsy
non-string), present but not a string, or a string of code units. -/
inductive ChatMessage where
  | absent
  | nonString
  | str (codeUnits : List Nat)
deriving Repr, DecidableEq

/-- An HTTP reply of the chat endpoint: status plus the response text
(the `msg` field on errors, the `message` field on success; the
`timestamp` and `user` echo of the success body carry no logic and are
not modelled). -/
structure ChatResponse where
  status : Nat
  message : String
deriving Repr, DecidableEq

/-- The 400 reply of the input validation (`part_000` lines 158–162). -/
def chatValidationError : ChatResponse :=
  { status := 400, message := "Message is required and must be a non-empty string" }

/-- The chat handler body (`part_000` lines 153–239): reject a missing,
non-string or blank-after-trim message with 400, otherwise answer 200 with
the keyword response computed on `message.trim().toLowerCase()`. -/
def chatHandler (msg : ChatMessage) : ChatResponse :=
  match msg with
  | .absent => chatValidationError
  | .nonString => chatValidationError
  | .str l =>
    if l == [] || trimCodes l == [] then chatValidationError
    else { status := 200, message := respondCore (lowerCodes (trimCodes l)) }

/-- `POST /api/chat` with the session guard in front
(`router.post("/", auth, ...)`, `part_000` line 153). The 401 bodies name
the guard failures of spec §6. -/
def chatEndpoint (serverSecret : String) (now : Nat) (tok : Option Token)
    (msg : ChatMessage) : ChatResponse :=
  match authenticate serverSecret now tok with
  | .missingToken => { status := 401, message := "MissingToken" }
  | .invalidToken => { status := 401, message := "InvalidToken" }
  | .expiredToken => { status := 401, message := "ExpiredToken" }
  | .ok _ => chatHandler msg

/-! ## Client session manager

From `src/frontend/frontend/src/context/AuthContext.jsx` (initializeAuth,
login, register, logout) and `src/unnamed/part_004` (the axios request and
response interceptors). `localStorage` holds two entries, keyed
`STORAGE_KEYS.AUTH_TOKEN` (the raw JWT string) and `STORAGE_KEYS.USER_DATA`
(the JSON-serialized projection). Every operation is a pure function from
the persisted storage (and in-memory user) to the new state plus a list of
observable effects, so that absence of network calls and pairing of
storage writes/removes are provable facts. -/

/-- A persisted raw token string as seen by `jwtDecode`: either it decodes
to a token or decoding throws (`malformed`). -/
inductive StoredTok where
  | malformed
  | valid (t : Token)
deriving Repr, DecidableEq

/-- The two client-local storage entries. -/
structure ClientStorage where
  authToken : Option StoredTok
  userData : Option UserProjection
deriving Repr, DecidableEq

/-- In-memory client session: the persisted storage plus the active `user`
state of the auth context (`some` = Authenticated, `none` = Anonymous). -/
structure ClientState where
  storage : ClientStorage
  user : Option UserProjection
deriving Repr, DecidableEq

/-- The storage key an effect touches. -/
inductive StorageKey where
  | authTokenKey
  | userDataKey
deriving Repr, DecidableEq

/-- Observable side effects of a session-manager operation. -/
inductive ClientEffect where
  | setItem (k : StorageKey)
  | removeItem (k : StorageKey)
  | networkCall (endpt : String)
  | redirect (path : String)
deriving Repr, DecidableEq

/-- `initializeAuth` (`AuthContext.jsx` lines 53–91), run once at startup
with `user` initially `null`: if both entries are present, decode the
token locally; a decode failure or an expiry before `now` removes both
entries and leaves the session anonymous; otherwise the cached projection
becomes the active user. If one or both entries are absent nothing is
touched and the session stays anonymous. No branch performs a network
call. `now` is `Date.now() / 1000`. -/
def initializeAuth (st : ClientStorage) (now : Nat) :
    ClientState × List ClientEffect :=
  match st.authToken, st.userData with
  | some tok, some ud =>
    match tok with
    | .malformed =>
      ({ storage := { authToken := none, userData := none }, user := none },
       [.removeItem .authTokenKey, .removeItem .userDataKey])
    | .valid t =>
      if t.exp < now then
        ({ storage := { authToken := none, userData := none }, user := none },
         [.removeItem .authTokenKey, .removeItem .userDataKey])
      else
        ({ storage := st, user := some ud }, [])
  | _, _ => ({ storage := st, user := none }, [])

/-- Client `login` (`AuthContext.jsx` lines 99–122): delegate to
`authAPI.login` over the network; on success write both storage entries
and make the projection the active user; on failure only surface the
message — no persistence or session change. The server reply is passed in
as `resp`. -/
def clientLogin (st : ClientState) (resp : LoginResult) :
    ClientState × List ClientEffect :=
  match resp with
  | .success tok u =>
    ({ storage := { authToken := some (.valid tok), userData := some u },
       user := some u },
     [.networkCall "/auth/login", .setItem .authTokenKey, .setItem .userDataKey])
  | .failure _ _ =>
    (st, [.networkCall "/auth/login"])

/-- Client `register` (`AuthContext.jsx` lines 132–150): network call only;
no storage entry and no active-user change in either outcome. -/
def clientRegister (st : ClientState) : ClientState × List ClientEffect :=
  (st, [.networkCall "/auth/register"])

/-- Client `logout` (`AuthContext.jsx` lines 156–161): remove both storage
entries and clear the active user; purely local. -/
def clientLogout (_st : ClientState) : ClientState × List ClientEffect :=
  ({ storage := { authToken := none, userData := none }, user := none },
   [.removeItem .authTokenKey, .removeItem .userDataKey])

/-- The axios request interceptor (`part_004` lines 29–40): if a token is
persisted, attach it as the `x-auth-token` header of the outgoing request;
otherwise leave the header as it was. Returns the header value the request
goes out with. -/
def requestInterceptor (st : ClientStorage) (hdr : Option StoredTok) :
    Option StoredTok :=
  match st.authToken with
  | some tok => some tok
  | none => hdr

/-- An error reply as seen by the axios response interceptor:
`error.response?.status` (`none` when no response arrived). -/
structure ApiError where
  status : Option Nat
deriving Repr, DecidableEq

/-- The axios response interceptor, error path (`part_004` lines 46–63):
a 401 (unauthorized — the status the guard uses for `MissingToken`,
`InvalidToken` and `ExpiredToken`) removes both storage entries and, when
not already on `/login`, redirects there (a full page load, discarding the
in-memory session). Any other error changes nothing. `pathname` is
`window.location.pathname`. -/
def responseInterceptor (st : ClientStorage) (pathname : String)
    (err : ApiError) : ClientStorage × List ClientEffect :=
  if err.status == some 401 then
    ({ authToken := none, userData := none },
     [.removeItem .authTokenKey, .removeItem .userDataKey] ++
       (if pathname != "/login" then [.redirect "/login"] else []))
  else
    (st, [])

/-- The operations of the client session manager. -/
inductive SessionOp where
  | initOp (now : Nat)
  | loginOp (resp : LoginResult)
  | registerOp
  | logoutOp
  | requestOp
  | responseErrOp (pathname : String) (err : ApiError)
deriving Repr, DecidableEq

/-- One session-manager operation as a step on the client state, with its
effects. `requestOp` (the request interceptor) only reads storage. -/
def sessionStep (st : ClientState) : SessionOp → ClientState × List ClientEffect
  | .initOp now => initializeAuth st.storage now
  | .loginOp resp => clientLogin st resp
  | .registerOp => clientRegister st
  | .logoutOp => clientLogout st
  | .requestOp => (st, [])
  | .responseErrOp pathname err =>
    let r := responseInterceptor st.storage pathname err
    ({ storage := r.1, user := st.user }, r.2)

/-- Keys written (`localStorage.setItem`) by a list of effects. -/
def storageWrites (effs : List ClientEffect) : List StorageKey :=
  effs.filterMap fun e =>
    match e with
    | .setItem k => some k
    | _ => none

/-- Keys removed (`localStorage.removeItem`) by a list of effects. -/
def storageRemoves (effs : List ClientEffect) : List StorageKey :=
  effs.filterMap fun e =>
    match e with
    | .removeItem k => some k
    | _ => none

/-- Whether a list of effects contains a network call. -/
def hasNetworkCall (effs : List ClientEffect) : Bool :=
  effs.any fun e =>
    match e with
    | .networkCall _ => true
    | _ => false

/-! ## Concrete demo values used by the witnesses -/

/-- The registered demo user used by concrete witnesses. -/
def demoUser : User :=
  { id := 1, name := "Alice", email := "a@x.com",
    password := bcryptHash 7 "secret1", interests := [] }

/-- The registration body used by concrete witnesses. -/
def demoBody : RegisterBody :=
  { name := some "Alice", email := some "a@x.com",
    password := some "secret1", interests := [] }

/-- A signed demo token used by concrete witnesses. -/
def demoToken : Token :=
  { id := 1, iat := 0, exp := 100, sig := "key" }

/-- The cached demo projection used by concrete witnesses. -/
def demoProj : UserProjection :=
  { id := 1, name := "Alice", email := "a@x.com" }

/-- A client storage holding both demo entries. -/
def demoStorage : ClientStorage :=
  { authToken := some (.valid demoToken), userData := some demoProj }

/-- A registration body with a missing email, used by the C8 witness. -/
def demoBadBody : RegisterBody :=
  { name := some "A", email := none, password := some "x", interests := [] }

/-! ## Helper lemmas -/

/-- In a store with pairwise distinct emails, lookup by the email of a
member resolves to that member. -/
theorem find?_email_unique (db : UserStore) (u : User) (e : String)
    (hn : (db.map User.email).Nodup) (hu : u ∈ db) (he : u.email = e) :
    db.find? (fun v => v.email == e) = some u := by
  induction db with
  | nil => exact absurd hu (List.not_mem_nil u)
  | cons a l ih =>
    rw [List.map_cons, List.nodup_cons] at hn
    rcases List.mem_cons.mp hu with rfl | hmem
    · exact List.find?_cons_of_pos l (by simp [he])
    · have hae : ¬(a.email == e) = true := by
        simp only [beq_iff_eq]
        intro hac
        exact hn.1 (hac ▸ he ▸ List.mem_map_of_mem User.email hmem)
      rw [List.find?_cons_of_neg l hae]
      exact ih hn.2 hmem

/-- A zero email count means lookup by that email fails. -/
theorem find?_email_of_countEmail_zero (db : UserStore) (e : String)
    (h : countEmail db e = 0) :
    db.find? (fun v => v.email == e) = none := by
  rw [List.find?_eq_none]
  intro u hu hbe
  have hmem : u ∈ db.filter (fun v => v.email == e) :=
    List.mem_filter.mpr ⟨hu, hbe⟩
  rw [countEmail, List.length_eq_zero] at h
  rw [h] at hmem
  exact absurd hmem (List.not_mem_nil u)

/-! ## Claims -/

/-- C1: for every registered user (store invariant: emails pairwise
distinct) with email `e` whose secret `s` verifies against the stored
hash, login succeeds and returns a token whose decoded subject is that
user identity and whose expiry is exactly issuance plus 7 days, together
with a projection holding exactly identity, name and email — the
projection type has no field for the secret hash. -/
theorem C1_login_issues_week_token (db : UserStore) (jwtSecret : String)
    (now : Nat) (u : User) (e s : String)
    (hn : (db.map User.email).Nodup) (hu : u ∈ db) (he : u.email = e)
    (hs : bcryptCompare s u.password = true) :
    ∃ tok proj,
      login db jwtSecret now { email := e, password := s } = .success tok proj ∧
      tok.id = u.id ∧ tok.iat = now ∧ tok.exp = tok.iat + 7 * 24 * 60 * 60 ∧
      proj = { id := u.id, name := u.name, email := u.email } := by
  refine ⟨jwtSign u.id jwtSecret now,
    { id := u.id, name := u.name, email := u.email }, ?_, rfl, rfl, rfl, rfl⟩
  simp only [login, findOneByEmail, find?_email_unique db u e hn hu he, hs,
    if_true]

/-- Witness for C1 at a concrete store, user and clock. -/
theorem C1_witness :
    ∃ tok proj,
      login [demoUser] "key" 100 { email := "a@x.com", password := "secret1" }
          = .success tok proj ∧
        tok.id = demoUser.id ∧ tok.iat = 100 ∧
        tok.exp = tok.iat + 7 * 24 * 60 * 60 ∧
        proj = { id := demoUser.id, name := demoUser.name,
                 email := demoUser.email } :=
  C1_login_issues_week_token [demoUser] "key" 100 demoUser "a@x.com" "secret1"
    (by decide) (by decide) (by decide) (by decide)

/-- C2: registering twice with the same email (a valid, previously unseen
one): the first attempt succeeds, the second fails with the duplicate
rejection, the store after the second attempt is unchanged, and exactly
one record with that email exists. -/
theorem C2_duplicate_registration (db : UserStore) (id1 s1 id2 s2 : Nat)
    (b : RegisterBody) (e p : String)
    (hbe : b.email = some e) (hbp : b.password = some p)
    (he : (e == "") = false) (hp : (p == "") = false)
    (hfresh : countEmail db e = 0) :
    (register db id1 s1 b).2 = .success "User registered successfully" ∧
    (register (register db id1 s1 b).1 id2 s2 b).2
        = .duplicate "User already exists" ∧
    (register (register db id1 s1 b).1 id2 s2 b).1 = (register db id1 s1 b).1 ∧
    countEmail (register db id1 s1 b).1 e = 1 := by
  have hnone := find?_email_of_countEmail_zero db e hfresh
  have hfirst : register db id1 s1 b
      = (db ++ [{ id := id1, name := b.name.getD "", email := e,
                  password := bcryptHash s1 p, interests := b.interests }],
         .success "User registered successfully") := by
    simp only [register, findOneByEmail, hbe, hbp, hnone, he, hp,
      Bool.or_self, Bool.false_eq_true, if_false]
  have hsec : findOneByEmail (register db id1 s1 b).1 (some e)
      = some { id := id1, name := b.name.getD "", email := e,
               password := bcryptHash s1 p, interests := b.interests } := by
    rw [hfirst]
    simp only [findOneByEmail, List.find?_append, hnone]
    simp
  have hdup : register (register db id1 s1 b).1 id2 s2 b
      = ((register db id1 s1 b).1, .duplicate "User already exists") := by
    generalize hdb1 : (register db id1 s1 b).1 = db1 at hsec ⊢
    simp only [register, hbe, hsec]
  refine ⟨by rw [hfirst], by rw [hdup], by rw [hdup], ?_⟩
  rw [hfirst]
  simp only [countEmail, List.filter_append, List.length_append]
  rw [countEmail] at hfresh
  rw [hfresh]
  simp

/-- Witness for C2 on an empty store. -/
theorem C2_witness :
    (register [] 1 7 demoBody).2 = .success "User registered successfully" ∧
    (register (register [] 1 7 demoBody).1 2 9 demoBody).2
        = .duplicate "User already exists" ∧
    (register (register [] 1 7 demoBody).1 2 9 demoBody).1
        = (register [] 1 7 demoBody).1 ∧
    countEmail (register [] 1 7 demoBody).1 "a@x.com" = 1 :=
  C2_duplicate_registration [] 1 7 2 9 demoBody "a@x.com" "secret1"
    (by decide) (by decide) (by decide) (by decide) (by decide)

/-- C3: login answers "User not found" when no user matches the email,
"Invalid credentials" when one matches but the secret does not verify;
the two messages differ, and neither failure response carries a token. -/
theorem C3_login_failures (db : UserStore) (jwtSecret : String) (now : Nat)
    (e p : String) :
    (findOneByEmail db (some e) = none →
      login db jwtSecret now { email := e, password := p }
          = .failure 400 "User not found" ∧
      (login db jwtSecret now { email := e, password := p }).hasToken
          = false) ∧
    (∀ u, findOneByEmail db (some e) = some u →
      bcryptCompare p u.password = false →
      login db jwtSecret now { email := e, password := p }
          = .failure 400 "Invalid credentials" ∧
      (login db jwtSecret now { email := e, password := p }).hasToken
          = false) ∧
    ("User not found" : String) ≠ "Invalid credentials" := by
  refine ⟨fun hnone => ?_, fun u hsome hbad => ?_, by decide⟩
  · have : login db jwtSecret now { email := e, password := p }
        = .failure 400 "User not found" := by
      simp only [login, hnone]
    exact ⟨this, by rw [this]; rfl⟩
  · have : login db jwtSecret now { email := e, password := p }
        = .failure 400 "Invalid credentials" := by
      simp only [login, hsome, hbad, Bool.false_eq_true, if_false]
    exact ⟨this, by rw [this]; rfl⟩

/-- Witness for C3: unknown email on an empty store, wrong secret on the
demo store. -/
theorem C3_witness :
    login [] "key" 0 { email := "a@x.com", password := "pw" }
        = .failure 400 "User not found" ∧
    login [demoUser] "key" 0 { email := "a@x.com", password := "wrong" }
        = .failure 400 "Invalid credentials" :=
  ⟨((C3_login_failures [] "key" 0 "a@x.com" "pw").1 (by decide)).1,
   (((C3_login_failures [demoUser] "key" 0 "a@x.com" "wrong").2.1 demoUser
      (by decide)) (by decide)).1⟩

/-- C4: the session guard rejects an absent token as missing; a token
signed with a key other than the server secret as invalid — never as
expired; and a validly signed token whose expiry is in the past as
expired. -/
theorem C4_session_guard (serverSecret : String) (now : Nat) :
    authenticate serverSecret now none = .missingToken ∧
    (∀ t : Token, t.sig ≠ serverSecret →
      authenticate serverSecret now (some t) = .invalidToken ∧
      authenticate serverSecret now (some t) ≠ .expiredToken) ∧
    (∀ t : Token, t.sig = serverSecret → t.exp < now →
      authenticate serverSecret now (some t) = .expiredToken) := by
  refine ⟨rfl, fun t ht => ?_, fun t ht hexp => ?_⟩
  · have : authenticate serverSecret now (some t) = .invalidToken := by
      simp only [authenticate, bne_iff_ne, ne_eq, ht, not_false_eq_true,
        if_true]
    exact ⟨this, by rw [this]; intro hc; cases hc⟩
  · simp only [authenticate, bne_iff_ne, ne_eq, ht, not_true_eq_false,
      if_false, hexp, if_true]

/-- Witness for C4 at concrete tokens and clock. -/
theorem C4_witness :
    authenticate "key" 50 none = .missingToken ∧
    authenticate "key" 50 (some { id := 1, iat := 0, exp := 100, sig := "other" })
        = .invalidToken ∧
    authenticate "key" 50 (some { id := 1, iat := 0, exp := 100, sig := "other" })
        ≠ .expiredToken ∧
    authenticate "key" 50 (some { id := 1, iat := 0, exp := 10, sig := "key" })
        = .expiredToken := by
  refine ⟨(C4_session_guard "key" 50).1, ?_, ?_, ?_⟩
  · exact ((C4_session_guard "key" 50).2.1
      { id := 1, iat := 0, exp := 100, sig := "other" } (by decide)).1
  · exact ((C4_session_guard "key" 50).2.1
      { id := 1, iat := 0, exp := 100, sig := "other" } (by decide)).2
  · exact (C4_session_guard "key" 50).2.2
      { id := 1, iat := 0, exp := 10, sig := "key" } (by decide) (by decide)

/-- C5: with both entries persisted, initialize restores the cached
projection as the active session when the embedded expiry is in the
future, touching nothing and performing no network call; when the expiry
is in the past it removes both entries and ends anonymous (also with no
network call). -/
theorem C5_initialize_restores_or_clears (tok : Token) (ud : UserProjection)
    (now : Nat) :
    (now < tok.exp →
      initializeAuth { authToken := some (.valid tok), userData := some ud } now
          = ({ storage := { authToken := some (.valid tok),
                            userData := some ud },
               user := some ud }, []) ∧
      hasNetworkCall (initializeAuth
          { authToken := some (.valid tok), userData := some ud } now).2
        = false) ∧
    (tok.exp < now →
      initializeAuth { authToken := some (.valid tok), userData := some ud } now
          = ({ storage := { authToken := none, userData := none },
               user := none },
             [.removeItem .authTokenKey, .removeItem .userDataKey]) ∧
      hasNetworkCall (initializeAuth
          { authToken := some (.valid tok), userData := some ud } now).2
        = false) := by
  constructor
  · intro h
    have heq : initializeAuth
        { authToken := some (.valid tok), userData := some ud } now
        = ({ storage := { authToken := some (.valid tok), userData := some ud },
             user := some ud }, []) := by
      simp only [initializeAuth]
      rw [if_neg (by omega)]
    exact ⟨heq, by rw [heq]; rfl⟩
  · intro h
    have heq : initializeAuth
        { authToken := some (.valid tok), userData := some ud } now
        = ({ storage := { authToken := none, userData := none }, user := none },
           [.removeItem .authTokenKey, .removeItem .userDataKey]) := by
      simp only [initializeAuth]
      rw [if_pos h]
    exact ⟨heq, by rw [heq]; rfl⟩

/-- Witness for C5: one live clock, one past-expiry clock. -/
theorem C5_witness :
    initializeAuth demoStorage 50
      = ({ storage := demoStorage, user := some demoProj }, []) ∧
    initializeAuth demoStorage 200
      = ({ storage := { authToken := none, userData := none }, user := none },
         [.removeItem .authTokenKey, .removeItem .userDataKey]) :=
  ⟨((C5_initialize_restores_or_clears demoToken demoProj 50).1 (by decide)).1,
   ((C5_initialize_restores_or_clears demoToken demoProj 200).2 (by decide)).1⟩

/-- C7: any intercepted error response with the unauthorized status (401,
carrying the guard failures) removes both persisted entries — whatever
operation produced it and whatever page is active — and a subsequent
initialize on the resulting storage finds neither value and stays
anonymous. -/
theorem C7_rejection_clears_storage (st : ClientStorage) (pathname : String)
    (err : ApiError) (h : err.status = some 401) :
    (responseInterceptor st pathname err).1
        = { authToken := none, userData := none } ∧
    ClientEffect.removeItem .authTokenKey ∈ (responseInterceptor st pathname err).2 ∧
    ClientEffect.removeItem .userDataKey ∈ (responseInterceptor st pathname err).2 ∧
    (∀ now, initializeAuth (responseInterceptor st pathname err).1 now
        = ({ storage := { authToken := none, userData := none }, user := none },
           [])) := by
  have hcond : (err.status == some 401) = true := by rw [h]; rfl
  have heff : (responseInterceptor st pathname err).2
      = [.removeItem .authTokenKey, .removeItem .userDataKey] ++
          (if pathname != "/login" then [.redirect "/login"] else []) := by
    simp only [responseInterceptor, hcond, if_true]
  have hst : (responseInterceptor st pathname err).1
      = { authToken := none, userData := none } := by
    simp only [responseInterceptor, hcond, if_true]
  refine ⟨hst, ?_, ?_, fun now => by rw [hst]; rfl⟩
  · rw [heff]; exact List.mem_append_left _ (by simp)
  · rw [heff]; exact List.mem_append_left _ (by simp)

/-- Witness for C7 at a concrete storage and 401 error. -/
theorem C7_witness :
    (responseInterceptor demoStorage "/chat" { status := some 401 }).1
      = { authToken := none, userData := none } ∧
    initializeAuth
        (responseInterceptor demoStorage "/chat" { status := some 401 }).1 0
      = ({ storage := { authToken := none, userData := none }, user := none },
         []) := by
  have h := C7_rejection_clears_storage demoStorage "/chat"
    { status := some 401 } rfl
  exact ⟨h.1, h.2.2.2 0⟩

/-- C8: a registration whose email or secret is missing or empty is
rejected — duplicate 400 or thrown-error 500, never success — and writes
no record; a successful registration answers only the fixed success
message (the response type carries no token). Presence enforcement is the
spec-modelled store validation, see `createInputOk`. -/
theorem C8_register_requires_presence (db : UserStore) (newId salt : Nat)
    (b : RegisterBody) :
    ((b.email = none ∨ b.email = some "" ∨ b.password = none ∨
        b.password = some "") →
      (register db newId salt b).1 = db ∧
      (register db newId salt b).2.isSuccess = false) ∧
    (∀ msg, (register db newId salt b).2 = .success msg →
      msg = "User registered successfully") := by
  obtain ⟨bn, be, bp, bi⟩ := b
  constructor
  · intro hbad
    rcases hf : findOneByEmail db be with _ | u
    · rcases hbad with h | h | h | h <;> simp only at h <;> subst h <;>
        simp only [register, hf] <;> first
        | (cases bp <;> simp [RegisterResult.isSuccess])
        | (cases be <;> simp [RegisterResult.isSuccess])
        | simp [RegisterResult.isSuccess]
    · simp [register, hf, RegisterResult.isSuccess]
  · intro msg hmsg
    simp only [register] at hmsg
    rcases hf : findOneByEmail db be with _ | u <;> rw [hf] at hmsg
    · cases be <;> cases bp <;> simp only at hmsg
      · cases hmsg
      · cases hmsg
      · cases hmsg
      · split at hmsg
        · cases hmsg
        · exact ((RegisterResult.success.injEq _ _).mp hmsg).symm
    · cases hmsg

/-- Witness for C8: missing email on an empty store, and a successful
registration returning the fixed message. -/
theorem C8_witness :
    (register [] 1 7 demoBadBody).1 = [] ∧
    (register [] 1 7 demoBadBody).2.isSuccess = false ∧
    ("User registered successfully" : String)
        = "User registered successfully" := by
  have h := C8_register_requires_presence [] 1 7 demoBadBody
  have hb := h.1 (Or.inl rfl)
  have hg := (C8_register_requires_presence [] 1 7 demoBody).2
    "User registered successfully" (by decide)
  exact ⟨hb.1, hb.2, hg⟩

/-- C10: with exactly one persisted value, initialize stays anonymous and
leaves storage untouched — the orphan entry is not removed — and an
orphan token is still attached by the request interceptor to every
outgoing request. -/
theorem C10_orphan_entry_kept (now : Nat) :
    (∀ tok : StoredTok,
      initializeAuth { authToken := some tok, userData := none } now
        = ({ storage := { authToken := some tok, userData := none },
             user := none }, [])) ∧
    (∀ ud : UserProjection,
      initializeAuth { authToken := none, userData := some ud } now
        = ({ storage := { authToken := none, userData := some ud },
             user := none }, [])) ∧
    (∀ (tok : StoredTok) (hdr : Option StoredTok),
      requestInterceptor { authToken := some tok, userData := none } hdr
        = some tok) := by
  exact ⟨fun tok => rfl, fun ud => rfl, fun tok hdr => rfl⟩

/-- C6: across every session-manager operation the two persisted entries
move together — an operation writes the token entry exactly when it also
writes the projection entry, and removes one exactly when it removes the
other; concretely, a successful login writes both, logout removes both, an
intercepted 401 removes both, and a detected startup expiry removes both. -/
theorem C6_entries_paired (st : ClientState) (op : SessionOp) :
    ((StorageKey.authTokenKey ∈ storageWrites (sessionStep st op).2 ↔
       StorageKey.userDataKey ∈ storageWrites (sessionStep st op).2) ∧
     (StorageKey.authTokenKey ∈ storageRemoves (sessionStep st op).2 ↔
       StorageKey.userDataKey ∈ storageRemoves (sessionStep st op).2)) ∧
    (∀ t u, storageWrites (sessionStep st (.loginOp (.success t u))).2
        = [.authTokenKey, .userDataKey]) ∧
    storageRemoves (sessionStep st .logoutOp).2
        = [.authTokenKey, .userDataKey] ∧
    (∀ pathname, storageRemoves
        (sessionStep st (.responseErrOp pathname { status := some 401 })).2
        = [.authTokenKey, .userDataKey]) ∧
    (∀ (tok : Token) (ud : UserProjection) (now : Nat), tok.exp < now →
      storageRemoves (sessionStep
          { storage := { authToken := some (.valid tok), userData := some ud },
            user := st.user } (.initOp now)).2
        = [.authTokenKey, .userDataKey]) := by
  refine ⟨?_, fun t u => rfl, rfl, fun pathname => ?_, fun tok ud now h => ?_⟩
  · cases op with
    | initOp now =>
      rcases st with ⟨⟨tk, ud⟩, u⟩
      cases tk with
      | none =>
        simp [sessionStep, initializeAuth, storageWrites, storageRemoves]
      | some stok =>
        cases ud with
        | none =>
          simp [sessionStep, initializeAuth, storageWrites, storageRemoves]
        | some udv =>
          cases stok with
          | malformed =>
            simp [sessionStep, initializeAuth, storageWrites, storageRemoves]
          | valid t =>
            by_cases h : t.exp < now
            · simp [sessionStep, initializeAuth, h, storageWrites,
                storageRemoves]
            · simp [sessionStep, initializeAuth, h, storageWrites,
                storageRemoves]
    | loginOp resp =>
      cases resp <;>
        simp [sessionStep, clientLogin, storageWrites, storageRemoves]
    | registerOp =>
      simp [sessionStep, clientRegister, storageWrites, storageRemoves]
    | logoutOp =>
      simp [sessionStep, clientLogout, storageWrites, storageRemoves]
    | requestOp =>
      simp [sessionStep, storageWrites, storageRemoves]
    | responseErrOp pathname err =>
      by_cases h : (err.status == some 401) = true
      · simp only [sessionStep, responseInterceptor, h, if_true]
        split <;>
          simp [storageWrites, storageRemoves]
      · simp only [sessionStep, responseInterceptor, h, if_false]
        simp [storageWrites, storageRemoves]
  · by_cases hp : (pathname != "/login") = true
    · simp [sessionStep, responseInterceptor, hp, storageRemoves]
    · simp [sessionStep, responseInterceptor, hp, storageRemoves]
  · simp only [sessionStep, initializeAuth]
    rw [if_pos h]
    rfl

/-- Witness for C6: a stale persisted token removed at startup. -/
theorem C6_witness :
    storageRemoves (sessionStep
        { storage := demoStorage, user := none } (.initOp 200)).2
      = [.authTokenKey, .userDataKey] :=
  (C6_entries_paired { storage := demoStorage, user := none }
      (.initOp 200)).2.2.2.2 demoToken demoProj 200 (by decide)

/-! ## Chat lemmas -/

/-- ASCII lowercasing is idempotent per code unit. -/
theorem lowerCode_lowerCode (n : Nat) : lowerCode (lowerCode n) = lowerCode n := by
  simp only [lowerCode]
  by_cases h : 65 ≤ n ∧ n ≤ 90
  · rw [if_pos h, if_neg (by omega : ¬(65 ≤ n + 32 ∧ n + 32 ≤ 90))]
  · rw [if_neg h, if_neg h]

/-- Lowercasing a code unit does not change whether it is whitespace. -/
theorem wsCode_lowerCode (n : Nat) : wsCode (lowerCode n) = wsCode n := by
  by_cases h : 65 ≤ n ∧ n ≤ 90
  · have hl : lowerCode n = n + 32 := by simp [lowerCode, h]
    rw [hl, Bool.eq_iff_iff]
    simp only [wsCode, Bool.or_eq_true, Bool.and_eq_true, decide_eq_true_eq,
      beq_iff_eq]
    omega
  · have hl : lowerCode n = n := by simp [lowerCode, h]
    rw [hl]

/-- Function form of `wsCode_lowerCode`. -/
theorem wsCode_comp_lowerCode : wsCode ∘ lowerCode = wsCode :=
  funext wsCode_lowerCode

/-- Trimming commutes with lowercasing. -/
theorem trimCodes_lowerCodes (l : List Nat) :
    trimCodes (lowerCodes l) = lowerCodes (trimCodes l) := by
  simp only [trimCodes, lowerCodes]
  rw [List.dropWhile_map, wsCode_comp_lowerCode, ← List.map_reverse,
    List.dropWhile_map, wsCode_comp_lowerCode, ← List.map_reverse]

/-- Lowercasing a whole message is idempotent. -/
theorem lowerCodes_lowerCodes (l : List Nat) :
    lowerCodes (lowerCodes l) = lowerCodes l := by
  simp only [lowerCodes, List.map_map]
  congr 1
  funext n
  exact lowerCode_lowerCode n

/-- Every branch of the keyword chain answers a non-empty string. -/
theorem respondCore_ne_empty (u : List Nat) : respondCore u ≠ "" := by
  simp only [respondCore]
  repeat' split
  all_goals decide

/-- When no keyword category matches, the chain falls through to the
catch-all answer. -/
theorem respondCore_default (u : List Nat) (h : keywordHit u = false) :
    respondCore u = defaultChatAnswer := by
  simp only [keywordHit, Bool.or_eq_false_iff] at h
  obtain ⟨⟨⟨⟨⟨⟨⟨⟨⟨⟨⟨⟨⟨⟨⟨⟨⟨⟨⟨⟨h1, h2⟩, h3⟩, h4⟩, h5⟩, h6⟩, h7⟩, h8⟩, h9⟩,
    h10⟩, h11⟩, h12⟩, h13⟩, h14⟩, h15⟩, h16⟩, h17⟩, h18⟩, h19⟩, h20⟩, h21⟩ := h
  simp only [respondCore, h1, h2, h3, h4, h5, h6, h7, h8, h9, h10, h11, h12,
    h13, h14, h15, h16, h17, h18, h19, h20, h21, Bool.or_self,
    Bool.false_eq_true, if_false, defaultChatAnswer]

/-- A message that is non-blank after trimming passes validation and gets
the keyword answer computed on its trimmed, lowercased form. -/
theorem chatHandler_valid (l : List Nat) (h : trimCodes l ≠ []) :
    chatHandler (.str l)
      = { status := 200, message := respondCore (lowerCodes (trimCodes l)) } := by
  have hl : (l == []) = false := by
    cases l with
    | nil => exact absurd rfl h
    | cons a t => rfl
  have ht : (trimCodes l == []) = false := by
    rcases htl : trimCodes l with _ | ⟨a, t⟩
    · exact absurd htl h
    · rfl
  simp only [chatHandler, hl, ht, Bool.or_self, Bool.false_eq_true, if_false]

/-- The chat handler is insensitive to the case of its input message. -/
theorem chatHandler_lowerCodes (l : List Nat) :
    chatHandler (.str (lowerCodes l)) = chatHandler (.str l) := by
  by_cases h : trimCodes l = []
  · have h2 : trimCodes (lowerCodes l) = [] := by
      rw [trimCodes_lowerCodes, h]
      rfl
    simp [chatHandler, h, h2]
  · have h2 : trimCodes (lowerCodes l) ≠ [] := by
      rw [trimCodes_lowerCodes]
      intro hc
      simp only [lowerCodes] at hc
      exact h (List.map_eq_nil_iff.mp hc)
    rw [chatHandler_valid (lowerCodes l) h2, chatHandler_valid l h,
      trimCodes_lowerCodes, lowerCodes_lowerCodes]

/-- C9: on an authenticated chat request, a message non-blank after
trimming gets a 200 with a non-empty answer; matching is done on the
lowercased message (so lowercasing the input does not change the reply)
and a message hitting no keyword category gets the catch-all answer; a
blank, absent or non-string message is rejected with the 400 validation
error. -/
theorem C9_chat_responses (serverSecret : String) (now : Nat)
    (tok : Option Token) (uid : Nat) (l : List Nat)
    (hauth : authenticate serverSecret now tok = .ok uid) :
    (trimCodes l ≠ [] →
      (chatEndpoint serverSecret now tok (.str l)).status = 200 ∧
      (chatEndpoint serverSecret now tok (.str l)).message ≠ "" ∧
      (keywordHit (lowerCodes (trimCodes l)) = false →
        (chatEndpoint serverSecret now tok (.str l)).message
          = defaultChatAnswer)) ∧
    chatEndpoint serverSecret now tok (.str (lowerCodes l))
        = chatEndpoint serverSecret now tok (.str l) ∧
    (trimCodes l = [] →
      chatEndpoint serverSecret now tok (.str l) = chatValidationError) ∧
    chatEndpoint serverSecret now tok .absent = chatValidationError ∧
    chatEndpoint serverSecret now tok .nonString = chatValidationError := by
  have hend : ∀ m, chatEndpoint serverSecret now tok m = chatHandler m := by
    intro m
    simp only [chatEndpoint, hauth]
  refine ⟨fun h => ?_, ?_, fun h => ?_, ?_, ?_⟩
  · rw [hend, chatHandler_valid l h]
    exact ⟨rfl, respondCore_ne_empty _, fun hk => respondCore_default _ hk⟩
  · rw [hend, hend, chatHandler_lowerCodes]
  · rw [hend]
    simp [chatHandler, h]
  · rw [hend]; rfl
  · rw [hend]; rfl

/-- Witness for C9: a greeting gets a 200, an absent message and a blank
message get the 400 validation error. -/
theorem C9_witness :
    (chatEndpoint "key" 0 (some demoToken) (.str (codes "Hello"))).status
        = 200 ∧
    chatEndpoint "key" 0 (some demoToken) .absent = chatValidationError ∧
    chatEndpoint "key" 0 (some demoToken) (.str (codes "   "))
        = chatValidationError := by
  have h := C9_chat_responses "key" 0 (some demoToken) 1 (codes "Hello")
    (by decide)
  have h2 := C9_chat_responses "key" 0 (some demoToken) 1 (codes "   ")
    (by decide)
  exact ⟨(h.1 (by decide)).1, h.2.2.2.1, h2.2.2.1 (by decide)⟩
